import Mathlib

set_option maxHeartbeats 1000000

/-!
Shallow embedding of the GPU image-buffer subsystem of the optical-flow-filter
repository (`src/src/gpu/image.cu`): the `GPUImage` pitched device buffer with
its upload/download operations and shape validation, and the `GPUTexture`
wrapper with its channel-format configuration.

C `int` shape fields are modelled as `Nat` (all observed uses are
non-negative sizes); device and host memories are modelled as byte maps
`Nat → Nat` indexed by byte offset from the base pointer.  Outcomes of the
CUDA runtime calls (`cudaMallocPitch`, `cudaCreateTextureObject`) are supplied
by explicit oracle values, since the platform chooses pitches and may fail.
The diagnostic messages written to `stderr` by the source are modelled as
outcome values returned alongside the new state.
-/

namespace flowfilter

/-- Host image descriptor `flowfilter::image_t`: a plain view over
externally owned host memory.  `data` maps a byte offset from the base
pointer to the byte stored there. -/
structure image_t where
  height : Nat
  width : Nat
  depth : Nat
  pitch : Nat
  itemSize : Nat
  data : Nat → Nat

namespace gpu

/-- Contents of one device allocation: a map from byte offset to byte value. -/
structure DeviceMem where
  bytes : Nat → Nat

/-- Outcome of a `cudaMallocPitch` call: the platform either fails, or
succeeds choosing a row pitch and handing back uninitialized memory. -/
inductive AllocOracle where
  | fail
  | ok (pitch : Nat) (init : DeviceMem)

/-- Device buffer `flowfilter::gpu::GPUImage`.  `ptr_dev = none` models a
null `__ptr_dev` shared pointer (unallocated buffer). -/
structure GPUImage where
  height : Nat
  width : Nat
  depth : Nat
  pitch : Nat
  itemSize : Nat
  ptr_dev : Option DeviceMem

/-- `GPUImage::GPUImage()`: all shape fields zero, null device pointer. -/
def GPUImage.mkDefault : GPUImage :=
  { height := 0, width := 0, depth := 0, pitch := 0, itemSize := 0, ptr_dev := none }

/-- `GPUImage::allocate()`: calls `cudaMallocPitch` for
`width*depth*itemSize` bytes per row over `height` rows.  On success the
returned pitch is recorded and the shared pointer takes ownership of the new
buffer; on failure the pointer is null and `__pitch` is not written
(the source prints the platform error to `stderr` and continues). -/
def GPUImage.allocate (g : GPUImage) (o : AllocOracle) : GPUImage :=
  match o with
  | .fail => { g with ptr_dev := none }
  | .ok p init => { g with pitch := p, ptr_dev := some init }

/-- `GPUImage::GPUImage(height, width, depth, itemSize)`: records the shape
and immediately allocates.  In the source `__pitch` is uninitialized until
`cudaMallocPitch` writes it; it is modelled as 0 before allocation. -/
def GPUImage.mkShaped (height width depth itemSize : Nat) (o : AllocOracle) : GPUImage :=
  GPUImage.allocate
    { height := height, width := width, depth := depth, pitch := 0,
      itemSize := itemSize, ptr_dev := none } o

/-- `GPUImage::compareShape`: the shape validation used by upload and
download; compares exactly height, width, depth and itemSize. -/
def GPUImage.compareShape (g : GPUImage) (img : image_t) : Bool :=
  g.height == img.height &&
    g.width == img.width &&
    g.depth == img.depth &&
    g.itemSize == img.itemSize

/-- Effect of a successful `cudaMemcpy2D`: a strided 2D copy transferring
`widthBytes` bytes per row over `height` rows, reading row `r` at source
offset `r * spitch` and writing it at destination offset `r * dpitch`. -/
def memcpy2Dbytes (dst : Nat → Nat) (dpitch : Nat) (src : Nat → Nat) (spitch : Nat)
    (widthBytes height : Nat) : Nat → Nat :=
  fun i =>
    if i / dpitch < height ∧ i % dpitch < widthBytes then
      src (i / dpitch * spitch + i % dpitch)
    else
      dst i

/-- `cudaMemcpy2D` precondition on the two row strides: the runtime rejects
the call (no bytes are transferred) unless both pitches are at least the
transfer width. -/
def pitchesValid (dpitch spitch widthBytes : Nat) : Bool :=
  decide (widthBytes ≤ dpitch) && decide (widthBytes ≤ spitch)

/-- Observable outcome of `GPUImage::upload`: either `cudaMemcpy2D` was
invoked (with `ok` telling whether the runtime accepted the call), or the
shape-mismatch diagnostic was printed and the call returned without copying. -/
inductive UploadOutcome where
  | copyAttempted (ok : Bool)
  | shapeMismatch
deriving DecidableEq, Repr

/-- Observable outcome of `GPUImage::download`. -/
inductive DownloadOutcome where
  | copyAttempted (ok : Bool)
  | shapeMismatch
  | unallocated
deriving DecidableEq, Repr

/-- The allocation phase of `GPUImage::upload` (lines 77–88 of `image.cu`):
if the device pointer is null, adopt the host image's shape and allocate;
otherwise leave the buffer unchanged. -/
def GPUImage.adoptIfUnallocated (g : GPUImage) (img : image_t) (o : AllocOracle) : GPUImage :=
  if g.ptr_dev.isNone then
    GPUImage.allocate
      { g with width := img.width, height := img.height,
               depth := img.depth, itemSize := img.itemSize } o
  else g

/-- `GPUImage::upload(img)`: if the device pointer is null, adopt the host
image's shape and allocate; then validate the shape; on match issue the
host-to-device `cudaMemcpy2D` (which fails without transferring anything if
the device pointer is still null or a pitch is smaller than the transfer
width); on mismatch print the error and return with no copy. -/
def GPUImage.upload (g : GPUImage) (img : image_t) (o : AllocOracle) :
    GPUImage × UploadOutcome :=
  let g := g.adoptIfUnallocated img o
  if g.compareShape img then
    match g.ptr_dev with
    | none => (g, .copyAttempted false)
    | some mem =>
        let widthBytes := g.width * g.depth * g.itemSize
        if pitchesValid g.pitch img.pitch widthBytes then
          let mem2 := DeviceMem.mk
            (memcpy2Dbytes mem.bytes g.pitch img.data img.pitch widthBytes g.height)
          ({ g with ptr_dev := some mem2 }, .copyAttempted true)
        else
          (g, .copyAttempted false)
  else
    (g, .shapeMismatch)

/-- `GPUImage::download(img)`: fails if the device pointer is null;
otherwise validates the shape; on match issues the device-to-host
`cudaMemcpy2D` into the host image's memory; on mismatch prints the error
and copies nothing.  The method is `const`: the buffer is never modified,
so only the (possibly updated) host image and the outcome are returned. -/
def GPUImage.download (g : GPUImage) (img : image_t) : image_t × DownloadOutcome :=
  match g.ptr_dev with
  | none => (img, .unallocated)
  | some mem =>
      if g.compareShape img then
        let widthBytes := g.width * g.depth * g.itemSize
        if pitchesValid img.pitch g.pitch widthBytes then
          let d2 := memcpy2Dbytes img.data img.pitch mem.bytes g.pitch widthBytes g.height
          ({ img with data := d2 }, .copyAttempted true)
        else
          (img, .copyAttempted false)
      else
        (img, .shapeMismatch)

/-- The CUDA channel-format descriptor built by `cudaCreateChannelDesc`:
per-channel bit widths `x y z w` and the format kind `f`. -/
structure cudaChannelFormatDesc where
  x : Nat
  y : Nat
  z : Nat
  w : Nat
  f : Nat
deriving DecidableEq, Repr

/-- `cudaCreateChannelDesc(x, y, z, w, f)`. -/
def cudaCreateChannelDesc (x y z w f : Nat) : cudaChannelFormatDesc :=
  { x := x, y := y, z := z, w := w, f := f }

/-- Channel `k` (0-based) of a channel-format descriptor, for `k < 4`. -/
def cudaChannelFormatDesc.channel (d : cudaChannelFormatDesc) (k : Nat) : Nat :=
  match k with
  | 0 => d.x
  | 1 => d.y
  | 2 => d.z
  | _ => d.w

/-- The channel-format descriptor computed in `GPUTexture::configure`
(lines 224–234 of `image.cu`): bit width `8 * itemSize` for channel 1,
the same for channels 2, 3, 4 when `depth` reaches them, else 0. -/
def GPUTexture.channelDescOf (img : GPUImage) (format : Nat) : cudaChannelFormatDesc :=
  let channels := img.depth
  let bitWidth := 8 * img.itemSize
  let w1 := bitWidth
  let w2 := if channels ≥ 2 then bitWidth else 0
  let w3 := if channels ≥ 3 then bitWidth else 0
  let w4 := if channels = 4 then bitWidth else 0
  cudaCreateChannelDesc w1 w2 w3 w4 format

/-- Outcome of a `cudaCreateTextureObject` call: the platform rejects the
composed descriptors or returns a texture-object handle. -/
inductive TexCreateOracle where
  | fail
  | ok (handle : Nat)

/-- Observable outcome of `GPUTexture::configure`: either the channel count
exceeded 4 (diagnostic printed, creation never attempted), or the creation
call was made and failed, or it succeeded. -/
inductive ConfigureOutcome where
  | channelError
  | createFailed
  | created
deriving DecidableEq, Repr

/-- Device texture `flowfilter::gpu::GPUTexture`: the held `GPUImage`, the
hardware texture-object handle (`none` while no object has been created),
and the validity flag.

Modelled from the spec: the header `flowfilter/gpu/image.h` declaring the
members is not under `src/`; the spec's data model says an invalid texture
"must never be used" and the construction algorithm "marks the texture
invalid" on failure, so the validity flag starts out `false` and the
texture handle starts out absent, as the default constructor
`GPUTexture::GPUTexture()` does explicitly. -/
structure GPUTexture where
  image : GPUImage
  texture : Option Nat
  validTexture : Bool

/-- `GPUTexture::configure(format, addressMode, filterMode, readMode)`:
rejects more than 4 channels (diagnostic, early return, no creation call);
otherwise builds the channel, texture and resource descriptors and calls
`cudaCreateTextureObject`, setting the validity flag to the call's
success. -/
def GPUTexture.configure (t : GPUTexture)
    (format addressMode filterMode readMode : Nat)
    (o : TexCreateOracle) : GPUTexture × ConfigureOutcome :=
  let channels := t.image.depth
  if channels > 4 then
    (t, .channelError)
  else
    let _channelDesc := GPUTexture.channelDescOf t.image format
    let _modes := (addressMode, filterMode, readMode)
    match o with
    | .fail => ({ t with validTexture := false }, .createFailed)
    | .ok handle => ({ t with texture := some handle, validTexture := true }, .created)

/-- `GPUTexture::GPUTexture(img, format, addressMode, filterMode, readMode)`:
holds the image and configures the CUDA texture. -/
def GPUTexture.mkConfigured (img : GPUImage)
    (format addressMode filterMode readMode : Nat)
    (o : TexCreateOracle) : GPUTexture × ConfigureOutcome :=
  GPUTexture.configure { image := img, texture := none, validTexture := false }
    format addressMode filterMode readMode o

/-- CUDA enum value `cudaAddressModeClamp`. -/
def cudaAddressModeClamp : Nat := 1

/-- CUDA enum value `cudaFilterModePoint`. -/
def cudaFilterModePoint : Nat := 0

/-- CUDA enum value `cudaReadModeElementType`. -/
def cudaReadModeElementType : Nat := 0

/-- `GPUTexture::GPUTexture(img, format)`: delegates to the full constructor
with clamp addressing, point filtering and element-type reads. -/
def GPUTexture.mkFromImage (img : GPUImage) (format : Nat)
    (o : TexCreateOracle) : GPUTexture × ConfigureOutcome :=
  GPUTexture.mkConfigured img format
    cudaAddressModeClamp cudaFilterModePoint cudaReadModeElementType o

/-!
Ownership model for the device allocation.

Modelled from the spec: the deleter `gpu_deleter` lives in
`flowfilter/gpu/gpu_deleter.h`, which is not under `src/`, and the
reference counting is `std::shared_ptr`.  Per the spec, the allocation is
reference-counted, "released exactly when the last owner is destroyed, via
the compute platform's deallocation call, never via generic memory free".
The model is a heap of device allocations indexed by handle, with a
reference count, liveness flag and contents per handle, and counters for
how many times `cudaFree` and generic `free` have been invoked on each
handle.
-/

/-- Heap of reference-counted device allocations. -/
structure DevHeap where
  refcount : Nat → Nat
  live : Nat → Bool
  mem : Nat → DeviceMem
  cudaFreeCalls : Nat → Nat
  freeCalls : Nat → Nat

/-- Copying a `GPUImage` (or storing one inside a `GPUTexture`) copies its
`shared_ptr`, incrementing the reference count of the shared allocation;
nothing else on the heap changes. -/
def DevHeap.sharedPtrCopy (s : DevHeap) (h : Nat) : DevHeap :=
  { s with refcount := fun k => if k = h then s.refcount k + 1 else s.refcount k }

/-- Destroying an owner (`GPUImage::~GPUImage` or the image held by a
`GPUTexture`) drops its `shared_ptr` reference: the count decrements, and
when the last reference drops, `gpu_deleter` releases the allocation with
`cudaFree` (never generic `free`). -/
def DevHeap.sharedPtrDrop (s : DevHeap) (h : Nat) : DevHeap :=
  if s.refcount h = 1 then
    { s with
      refcount := fun k => if k = h then 0 else s.refcount k,
      live := fun k => if k = h then false else s.live k,
      cudaFreeCalls := fun k => if k = h then s.cudaFreeCalls k + 1 else s.cudaFreeCalls k }
  else
    { s with
      refcount := fun k => if k = h then s.refcount k - 1 else s.refcount k }

/-- The pitch invariant claimed by the spec for allocated buffers: whenever
a device allocation exists, the recorded row pitch covers one tight row of
`width*depth*itemSize` bytes. -/
def pitchCoversRow (g : GPUImage) : Prop :=
  g.ptr_dev.isSome = true → g.width * g.depth * g.itemSize ≤ g.pitch

/-- The `cudaMallocPitch` contract: whenever the platform reports success,
the pitch it chose is at least the requested row width. -/
def AllocOracle.covers (o : AllocOracle) (widthBytes : Nat) : Prop :=
  ∀ p init, o = AllocOracle.ok p init → widthBytes ≤ p

/-- The shape discipline claimed by the spec's data model: the shape fields
are either all zero with no allocation, or all positive with an
allocation. -/
def wellFormedShape (g : GPUImage) : Prop :=
  (g.height = 0 ∧ g.width = 0 ∧ g.depth = 0 ∧ g.itemSize = 0 ∧ g.ptr_dev.isNone = true) ∨
  (0 < g.height ∧ 0 < g.width ∧ 0 < g.depth ∧ 0 < g.itemSize ∧ g.ptr_dev.isSome = true)

/-! Helper lemmas. -/

/-- Splitting a byte offset `r * p + c` with `c < p` back into row and
column. -/
theorem row_col_div_mod (p r c : Nat) (h : c < p) :
    (r * p + c) / p = r ∧ (r * p + c) % p = c := by
  have hp : 0 < p := Nat.lt_of_le_of_lt (Nat.zero_le c) h
  constructor
  · rw [Nat.mul_comm r p, Nat.mul_add_div hp, Nat.div_eq_of_lt h, Nat.add_zero]
  · rw [Nat.mul_comm r p, Nat.mul_add_mod, Nat.mod_eq_of_lt h]

/-- An allocated buffer whose shape mismatches the host image: upload is a
no-op reporting the mismatch. -/
theorem upload_alloc_mismatch (g : GPUImage) (mem : DeviceMem) (img : image_t)
    (o : AllocOracle) (halloc : g.ptr_dev = some mem)
    (hmis : g.compareShape img = false) :
    g.upload img o = (g, .shapeMismatch) := by
  simp [GPUImage.upload, GPUImage.adoptIfUnallocated, halloc, hmis]

/-- An allocated buffer whose shape mismatches the host image: download is a
no-op reporting the mismatch. -/
theorem download_alloc_mismatch (g : GPUImage) (mem : DeviceMem) (img : image_t)
    (halloc : g.ptr_dev = some mem)
    (hmis : g.compareShape img = false) :
    g.download img = (img, .shapeMismatch) := by
  simp [GPUImage.download, halloc, hmis]

/-- An allocated buffer with matching shape and valid pitches: upload
performs the strided host-to-device copy. -/
theorem upload_alloc_match (g : GPUImage) (mem : DeviceMem) (img : image_t)
    (o : AllocOracle) (halloc : g.ptr_dev = some mem)
    (hm : g.compareShape img = true)
    (hv : pitchesValid g.pitch img.pitch (g.width * g.depth * g.itemSize) = true) :
    g.upload img o =
      ({ g with ptr_dev := some (DeviceMem.mk (memcpy2Dbytes mem.bytes g.pitch img.data img.pitch (g.width * g.depth * g.itemSize) g.height)) },
        .copyAttempted true) := by
  simp [GPUImage.upload, GPUImage.adoptIfUnallocated, halloc, hm, hv]

/-- An allocated buffer with matching shape and valid pitches: download
performs the strided device-to-host copy. -/
theorem download_alloc_match (g : GPUImage) (mem : DeviceMem) (img : image_t)
    (halloc : g.ptr_dev = some mem)
    (hm : g.compareShape img = true)
    (hv : pitchesValid img.pitch g.pitch (g.width * g.depth * g.itemSize) = true) :
    g.download img =
      ({ img with data := memcpy2Dbytes img.data img.pitch mem.bytes g.pitch (g.width * g.depth * g.itemSize) g.height },
        .copyAttempted true) := by
  simp [GPUImage.download, halloc, hm, hv]

/-- Case analysis on the buffer returned by `upload`: it is exactly the
buffer produced by the allocation phase, either untouched or with its
device memory contents replaced (which requires the allocation phase to
have produced a non-null pointer); shape fields and pitch are never changed
after the allocation phase. -/
theorem upload_result_cases (g : GPUImage) (img : image_t) (o : AllocOracle) :
    (g.upload img o).1 = g.adoptIfUnallocated img o ∨
    ((g.adoptIfUnallocated img o).ptr_dev.isSome = true ∧
      ∃ m2, (g.upload img o).1 = { g.adoptIfUnallocated img o with ptr_dev := some m2 }) := by
  by_cases hc : (g.adoptIfUnallocated img o).compareShape img = true
  · cases hptr : (g.adoptIfUnallocated img o).ptr_dev with
    | none =>
        left
        simp [GPUImage.upload, hc, hptr]
    | some m =>
        by_cases hv : pitchesValid (g.adoptIfUnallocated img o).pitch img.pitch
          ((g.adoptIfUnallocated img o).width * (g.adoptIfUnallocated img o).depth *
            (g.adoptIfUnallocated img o).itemSize) = true
        · right
          refine ⟨by simp [hptr],
            DeviceMem.mk (memcpy2Dbytes m.bytes (g.adoptIfUnallocated img o).pitch
              img.data img.pitch
              ((g.adoptIfUnallocated img o).width * (g.adoptIfUnallocated img o).depth *
                (g.adoptIfUnallocated img o).itemSize)
              (g.adoptIfUnallocated img o).height), ?_⟩
          simp [GPUImage.upload, hc, hptr, hv]
        · left
          simp [GPUImage.upload, hc, hptr, hv]
  · left
    simp [GPUImage.upload, hc]

/-! Claim theorems. -/

/-- C1: for every device buffer whose channel depth exceeds 4, constructing
a device texture over it fails: the channel-count configuration error is
reported, the validity flag is false, no hardware texture object is
created, and the constructor returns normally (the embedding is a total
function — nothing is thrown). -/
theorem texture_depth_gt4_fails (img : GPUImage)
    (format addressMode filterMode readMode : Nat) (o : TexCreateOracle)
    (hdepth : img.depth > 4) :
    GPUTexture.mkConfigured img format addressMode filterMode readMode o =
      ({ image := img, texture := none, validTexture := false }, .channelError) := by
  simp [GPUTexture.mkConfigured, GPUTexture.configure, hdepth]

/-- Witness for C1: a concrete 5-channel buffer. -/
theorem texture_depth_gt4_fails_witness :
    GPUTexture.mkConfigured
      { height := 1, width := 1, depth := 5, pitch := 0, itemSize := 1, ptr_dev := none }
      0 1 0 0 TexCreateOracle.fail =
      ({ image := { height := 1, width := 1, depth := 5, pitch := 0, itemSize := 1, ptr_dev := none },
         texture := none, validTexture := false }, .channelError) :=
  texture_depth_gt4_fails _ 0 1 0 0 TexCreateOracle.fail (by decide)

/-- C5: for every unallocated device buffer and every host image, download
fails with the unallocated-access error, copies nothing, and leaves the
host image unchanged (the buffer itself is never modified: `download` is a
`const` method, which the embedding reflects by not returning a buffer). -/
theorem download_unallocated_fails (g : GPUImage) (img : image_t)
    (h : g.ptr_dev = none) :
    g.download img = (img, .unallocated) := by
  simp [GPUImage.download, h]

/-- Witness for C5: the default-constructed buffer and a concrete image. -/
theorem download_unallocated_fails_witness :
    GPUImage.mkDefault.download
      { height := 2, width := 2, depth := 1, pitch := 2, itemSize := 1, data := fun i => i } =
      ({ height := 2, width := 2, depth := 1, pitch := 2, itemSize := 1, data := fun i => i },
        .unallocated) :=
  download_unallocated_fails GPUImage.mkDefault _ rfl

/-- C4: for every allocated device buffer and every host image whose
(height, width, depth, itemSize) differs from the buffer's shape, upload
and download are no-ops: the returned buffer is exactly the input buffer
(shape fields, pitch, device pointer and contents unchanged), the host
image is returned unchanged, and the outcome is the shape-mismatch error
(no `cudaMemcpy2D` call is made, so zero bytes are copied). -/
theorem shape_mismatch_no_copy (g : GPUImage) (mem : DeviceMem) (img : image_t)
    (o : AllocOracle) (halloc : g.ptr_dev = some mem)
    (hmis : g.compareShape img = false) :
    g.upload img o = (g, .shapeMismatch) ∧ g.download img = (img, .shapeMismatch) :=
  ⟨upload_alloc_mismatch g mem img o halloc hmis,
    download_alloc_mismatch g mem img halloc hmis⟩

/-- Witness for C4: the spec's concrete scenario — a 2×2×4 buffer and a
host image with mismatched depth 3. -/
theorem shape_mismatch_no_copy_witness :
    ({ height := 2, width := 2, depth := 4, pitch := 8, itemSize := 1,
       ptr_dev := some (DeviceMem.mk fun i => i + 1) } : GPUImage).upload
      { height := 2, width := 2, depth := 3, pitch := 6, itemSize := 1, data := fun _ => 9 }
      AllocOracle.fail =
      ({ height := 2, width := 2, depth := 4, pitch := 8, itemSize := 1,
         ptr_dev := some (DeviceMem.mk fun i => i + 1) }, .shapeMismatch) ∧
    ({ height := 2, width := 2, depth := 4, pitch := 8, itemSize := 1,
       ptr_dev := some (DeviceMem.mk fun i => i + 1) } : GPUImage).download
      { height := 2, width := 2, depth := 3, pitch := 6, itemSize := 1, data := fun _ => 9 } =
      ({ height := 2, width := 2, depth := 3, pitch := 6, itemSize := 1, data := fun _ => 9 },
        .shapeMismatch) :=
  shape_mismatch_no_copy _ (DeviceMem.mk fun i => i + 1) _ AllocOracle.fail rfl (by decide)

/-- C10: the shape validation used by upload and download compares exactly
height, width, depth and itemSize — changing a host image's pitch or data
never changes the result of `compareShape` — and for an allocated buffer
with matching shape but a host pitch smaller than the tight row size
`width*depth*itemSize`, validation passes and the copy is still attempted
(the runtime call is made; it rejects the pitch and transfers nothing),
for both upload and download. -/
theorem compareShape_checks_only_four_fields (g : GPUImage) (mem : DeviceMem)
    (img : image_t) (p : Nat) (d : Nat → Nat) (o : AllocOracle)
    (halloc : g.ptr_dev = some mem)
    (hm : g.compareShape img = true)
    (hsmall : img.pitch < g.width * g.depth * g.itemSize) :
    g.compareShape { img with pitch := p, data := d } = g.compareShape img ∧
    (g.upload img o).2 = .copyAttempted false ∧
    (g.download img).2 = .copyAttempted false := by
  have hv : pitchesValid g.pitch img.pitch (g.width * g.depth * g.itemSize) = false := by
    simp [pitchesValid]
    omega
  have hv2 : pitchesValid img.pitch g.pitch (g.width * g.depth * g.itemSize) = false := by
    simp [pitchesValid]
    omega
  refine ⟨rfl, ?_, ?_⟩
  · simp [GPUImage.upload, GPUImage.adoptIfUnallocated, halloc, hm, hv]
  · simp [GPUImage.download, halloc, hm, hv2]

/-- Witness for C10: a 2×2×1 buffer (tight row size 2) and a matching host
image whose pitch is only 1. -/
theorem compareShape_checks_only_four_fields_witness :
    (({ height := 2, width := 2, depth := 1, pitch := 2, itemSize := 1,
        ptr_dev := some (DeviceMem.mk fun _ => 5) } : GPUImage).compareShape
      { height := 2, width := 2, depth := 1, pitch := 9, itemSize := 1, data := fun _ => 1 } =
      ({ height := 2, width := 2, depth := 1, pitch := 2, itemSize := 1,
         ptr_dev := some (DeviceMem.mk fun _ => 5) } : GPUImage).compareShape
        { height := 2, width := 2, depth := 1, pitch := 1, itemSize := 1, data := fun _ => 0 }) ∧
    (({ height := 2, width := 2, depth := 1, pitch := 2, itemSize := 1,
        ptr_dev := some (DeviceMem.mk fun _ => 5) } : GPUImage).upload
      { height := 2, width := 2, depth := 1, pitch := 1, itemSize := 1, data := fun _ => 0 }
      AllocOracle.fail).2 = .copyAttempted false ∧
    (({ height := 2, width := 2, depth := 1, pitch := 2, itemSize := 1,
        ptr_dev := some (DeviceMem.mk fun _ => 5) } : GPUImage).download
      { height := 2, width := 2, depth := 1, pitch := 1, itemSize := 1, data := fun _ => 0 }).2 =
      .copyAttempted false :=
  compareShape_checks_only_four_fields
    { height := 2, width := 2, depth := 1, pitch := 2, itemSize := 1,
      ptr_dev := some (DeviceMem.mk fun _ => 5) }
    (DeviceMem.mk fun _ => 5)
    { height := 2, width := 2, depth := 1, pitch := 1, itemSize := 1, data := fun _ => 0 }
    9 (fun _ => 1) AllocOracle.fail rfl (by decide) (by decide)

/-- C9: for every device texture over a buffer whose depth is between 1 and
4, the channel-format descriptor built by `configure` assigns bit width
`8 * itemSize` to each of the first `depth` channels and 0 to every channel
beyond `depth`. -/
theorem channel_desc_widths (img : GPUImage) (format k : Nat)
    (h1 : 1 ≤ img.depth) (h4 : img.depth ≤ 4) (hk : k < 4) :
    (GPUTexture.channelDescOf img format).channel k =
      if k < img.depth then 8 * img.itemSize else 0 := by
  simp only [GPUTexture.channelDescOf, cudaCreateChannelDesc]
  interval_cases k <;>
    simp only [cudaChannelFormatDesc.channel] <;> split_ifs <;> omega

/-- Witness for C9: depth 3, itemSize 4, channel 3 (beyond depth) has width
0. -/
theorem channel_desc_widths_witness :
    (GPUTexture.channelDescOf
      { height := 1, width := 1, depth := 3, pitch := 0, itemSize := 4, ptr_dev := none }
      2).channel 3 = if 3 < 3 then 8 * 4 else 0 :=
  channel_desc_widths
    { height := 1, width := 1, depth := 3, pitch := 0, itemSize := 4, ptr_dev := none }
    2 3 (by decide) (by decide) (by decide)

/-- Unallocated buffer: upload adopts the host image's shape, allocates
with the platform-chosen pitch, and — when the platform pitch and the host
pitch both satisfy the `cudaMemcpy2D` precondition — performs the copy. -/
theorem upload_unalloc_ok (g : GPUImage) (H : image_t) (p : Nat) (init : DeviceMem)
    (hempty : g.ptr_dev = none)
    (hp : H.width * H.depth * H.itemSize ≤ p)
    (hHp : H.width * H.depth * H.itemSize ≤ H.pitch) :
    g.upload H (AllocOracle.ok p init) =
      ({ height := H.height, width := H.width, depth := H.depth, pitch := p,
         itemSize := H.itemSize,
         ptr_dev := some (DeviceMem.mk (memcpy2Dbytes init.bytes p H.data H.pitch (H.width * H.depth * H.itemSize) H.height)) },
        .copyAttempted true) := by
  simp [GPUImage.upload, GPUImage.adoptIfUnallocated, GPUImage.allocate, GPUImage.compareShape, pitchesValid,
    hempty, hp, hHp]

/-- C2: calling upload on an unallocated buffer adopts the host image's
shape (height, width, depth, itemSize), allocates (recording the
platform-chosen pitch), and succeeds; a subsequent upload with a host image
of different shape fails with the shape-mismatch error, performs no copy,
and does not re-allocate (the buffer — pointer, pitch and shape — is
returned unchanged).  `hp` is the `cudaMallocPitch` guarantee that the
chosen pitch covers a row; `hHp` is the host-image interface contract
`pitch ≥ width*depth*itemSize`. -/
theorem upload_first_allocates_then_mismatch_fails (g : GPUImage)
    (H H2 : image_t) (p : Nat) (init : DeviceMem) (o2 : AllocOracle)
    (hempty : g.ptr_dev = none)
    (hp : H.width * H.depth * H.itemSize ≤ p)
    (hHp : H.width * H.depth * H.itemSize ≤ H.pitch)
    (hdiff : ¬(H2.height = H.height ∧ H2.width = H.width ∧ H2.depth = H.depth ∧
      H2.itemSize = H.itemSize)) :
    ((g.upload H (AllocOracle.ok p init)).1.height = H.height ∧
      (g.upload H (AllocOracle.ok p init)).1.width = H.width ∧
      (g.upload H (AllocOracle.ok p init)).1.depth = H.depth ∧
      (g.upload H (AllocOracle.ok p init)).1.itemSize = H.itemSize ∧
      (g.upload H (AllocOracle.ok p init)).1.pitch = p ∧
      (g.upload H (AllocOracle.ok p init)).1.ptr_dev.isSome = true ∧
      (g.upload H (AllocOracle.ok p init)).2 = .copyAttempted true) ∧
    (g.upload H (AllocOracle.ok p init)).1.upload H2 o2 =
      ((g.upload H (AllocOracle.ok p init)).1, .shapeMismatch) := by
  rw [upload_unalloc_ok g H p init hempty hp hHp]
  refine ⟨⟨rfl, rfl, rfl, rfl, rfl, rfl, rfl⟩, ?_⟩
  apply upload_alloc_mismatch _ _ _ o2 rfl
  simp only [GPUImage.compareShape, Bool.and_eq_false_iff, beq_eq_false_iff_ne, ne_eq]
  by_cases h1 : H.height = H2.height <;>
    by_cases h2 : H.width = H2.width <;>
    by_cases h3 : H.depth = H2.depth <;>
    by_cases h4 : H.itemSize = H2.itemSize <;>
    simp_all

/-- Witness for C2: first upload of a 1×2×1 byte image into an empty
buffer, then an upload with width 3. -/
theorem upload_first_allocates_then_mismatch_fails_witness :
    ((GPUImage.mkDefault.upload
        { height := 1, width := 2, depth := 1, pitch := 2, itemSize := 1, data := fun i => i + 3 }
        (AllocOracle.ok 2 (DeviceMem.mk fun _ => 0))).1.height = 1 ∧
      (GPUImage.mkDefault.upload
        { height := 1, width := 2, depth := 1, pitch := 2, itemSize := 1, data := fun i => i + 3 }
        (AllocOracle.ok 2 (DeviceMem.mk fun _ => 0))).1.width = 2 ∧
      (GPUImage.mkDefault.upload
        { height := 1, width := 2, depth := 1, pitch := 2, itemSize := 1, data := fun i => i + 3 }
        (AllocOracle.ok 2 (DeviceMem.mk fun _ => 0))).1.depth = 1 ∧
      (GPUImage.mkDefault.upload
        { height := 1, width := 2, depth := 1, pitch := 2, itemSize := 1, data := fun i => i + 3 }
        (AllocOracle.ok 2 (DeviceMem.mk fun _ => 0))).1.itemSize = 1 ∧
      (GPUImage.mkDefault.upload
        { height := 1, width := 2, depth := 1, pitch := 2, itemSize := 1, data := fun i => i + 3 }
        (AllocOracle.ok 2 (DeviceMem.mk fun _ => 0))).1.pitch = 2 ∧
      (GPUImage.mkDefault.upload
        { height := 1, width := 2, depth := 1, pitch := 2, itemSize := 1, data := fun i => i + 3 }
        (AllocOracle.ok 2 (DeviceMem.mk fun _ => 0))).1.ptr_dev.isSome = true ∧
      (GPUImage.mkDefault.upload
        { height := 1, width := 2, depth := 1, pitch := 2, itemSize := 1, data := fun i => i + 3 }
        (AllocOracle.ok 2 (DeviceMem.mk fun _ => 0))).2 = .copyAttempted true) ∧
    (GPUImage.mkDefault.upload
      { height := 1, width := 2, depth := 1, pitch := 2, itemSize := 1, data := fun i => i + 3 }
      (AllocOracle.ok 2 (DeviceMem.mk fun _ => 0))).1.upload
      { height := 1, width := 3, depth := 1, pitch := 3, itemSize := 1, data := fun _ => 0 }
      AllocOracle.fail =
      ((GPUImage.mkDefault.upload
        { height := 1, width := 2, depth := 1, pitch := 2, itemSize := 1, data := fun i => i + 3 }
        (AllocOracle.ok 2 (DeviceMem.mk fun _ => 0))).1, .shapeMismatch) :=
  upload_first_allocates_then_mismatch_fails GPUImage.mkDefault
    { height := 1, width := 2, depth := 1, pitch := 2, itemSize := 1, data := fun i => i + 3 }
    { height := 1, width := 3, depth := 1, pitch := 3, itemSize := 1, data := fun _ => 0 }
    2 (DeviceMem.mk fun _ => 0) AllocOracle.fail rfl (by decide) (by decide) (by decide)

/-- C3: round trip.  Uploading a host image `H` (pitch ≥ tight row size)
into an allocated device buffer of matching shape and then downloading into
a freshly zeroed host image `Hz` of identical shape (any pitch ≥ tight row
size) reproduces `H`'s pixel content exactly: both strided copies transfer
`width*depth*itemSize` bytes per row for `height` rows, respecting the
source and destination pitches independently, so byte `c` of row `r` of the
result equals byte `c` of row `r` of `H`.  `hgp` is the `cudaMallocPitch`
pitch guarantee on the buffer. -/
theorem upload_download_roundtrip (g : GPUImage) (mem : DeviceMem)
    (H Hz : image_t) (o : AllocOracle) (r c : Nat)
    (halloc : g.ptr_dev = some mem)
    (hmH : g.compareShape H = true)
    (hmHz : g.compareShape Hz = true)
    (hgp : g.width * g.depth * g.itemSize ≤ g.pitch)
    (hHp : g.width * g.depth * g.itemSize ≤ H.pitch)
    (hzp : g.width * g.depth * g.itemSize ≤ Hz.pitch)
    (_hzero : Hz.data = fun _ => 0)
    (hr : r < g.height) (hc : c < g.width * g.depth * g.itemSize) :
    (g.upload H o).2 = .copyAttempted true ∧
    ((g.upload H o).1.download Hz).2 = .copyAttempted true ∧
    ((g.upload H o).1.download Hz).1.data (r * Hz.pitch + c) =
      H.data (r * H.pitch + c) := by
  have hvH : pitchesValid g.pitch H.pitch (g.width * g.depth * g.itemSize) = true := by
    simp [pitchesValid, hgp, hHp]
  have hvZ : pitchesValid Hz.pitch g.pitch (g.width * g.depth * g.itemSize) = true := by
    simp [pitchesValid, hgp, hzp]
  obtain ⟨hdivZ, hmodZ⟩ := row_col_div_mod Hz.pitch r c (Nat.lt_of_lt_of_le hc hzp)
  obtain ⟨hdivG, hmodG⟩ := row_col_div_mod g.pitch r c (Nat.lt_of_lt_of_le hc hgp)
  have hu := upload_alloc_match g mem H o halloc hmH hvH
  have hd := download_alloc_match
    { g with ptr_dev := some (DeviceMem.mk (memcpy2Dbytes mem.bytes g.pitch H.data H.pitch (g.width * g.depth * g.itemSize) g.height)) }
    (DeviceMem.mk (memcpy2Dbytes mem.bytes g.pitch H.data H.pitch (g.width * g.depth * g.itemSize) g.height))
    Hz rfl hmHz hvZ
  rw [hu]
  dsimp only
  rw [hd]
  refine ⟨rfl, rfl, ?_⟩
  dsimp only
  simp [memcpy2Dbytes, hdivZ, hmodZ, hdivG, hmodG, hr, hc]

/-- Witness for C3: a 2×3 single-byte-channel buffer (platform pitch 4),
host source with tight pitch 3, zeroed destination with pitch 5; row 1,
byte 2 survives the round trip. -/
theorem upload_download_roundtrip_witness :
    (({ height := 2, width := 3, depth := 1, pitch := 4, itemSize := 1, ptr_dev := some (DeviceMem.mk fun _ => 0) } : GPUImage).upload { height := 2, width := 3, depth := 1, pitch := 3, itemSize := 1, data := fun i => i + 10 } AllocOracle.fail).2 = .copyAttempted true ∧
    ((({ height := 2, width := 3, depth := 1, pitch := 4, itemSize := 1, ptr_dev := some (DeviceMem.mk fun _ => 0) } : GPUImage).upload { height := 2, width := 3, depth := 1, pitch := 3, itemSize := 1, data := fun i => i + 10 } AllocOracle.fail).1.download { height := 2, width := 3, depth := 1, pitch := 5, itemSize := 1, data := fun _ => 0 }).2 = .copyAttempted true ∧
    ((({ height := 2, width := 3, depth := 1, pitch := 4, itemSize := 1, ptr_dev := some (DeviceMem.mk fun _ => 0) } : GPUImage).upload { height := 2, width := 3, depth := 1, pitch := 3, itemSize := 1, data := fun i => i + 10 } AllocOracle.fail).1.download { height := 2, width := 3, depth := 1, pitch := 5, itemSize := 1, data := fun _ => 0 }).1.data (1 * 5 + 2) = ({ height := 2, width := 3, depth := 1, pitch := 3, itemSize := 1, data := fun i => i + 10 } : image_t).data (1 * 3 + 2) :=
  upload_download_roundtrip
    { height := 2, width := 3, depth := 1, pitch := 4, itemSize := 1, ptr_dev := some (DeviceMem.mk fun _ => 0) }
    (DeviceMem.mk fun _ => 0)
    { height := 2, width := 3, depth := 1, pitch := 3, itemSize := 1, data := fun i => i + 10 }
    { height := 2, width := 3, depth := 1, pitch := 5, itemSize := 1, data := fun _ => 0 }
    AllocOracle.fail 1 2 rfl (by decide) (by decide) (by decide) (by decide) (by decide)
    rfl (by decide) (by decide)

/-- C6: successful construction records a pitch at least
`width*depth*itemSize` (`hp` is the `cudaMallocPitch` contract for the
chosen pitch), and the invariant "pitch covers a tight row whenever an
allocation exists" holds for both constructors, survives a failed
allocation (vacuously — the pointer is null), and is preserved by upload
under the same `cudaMallocPitch` contract (`ho`); download never modifies
the buffer, so the invariant holds after every operation. -/
theorem pitch_ge_row_size (h w d i p : Nat) (init : DeviceMem)
    (g : GPUImage) (img : image_t) (o : AllocOracle)
    (hp : w * d * i ≤ p)
    (hg : pitchCoversRow g)
    (ho : AllocOracle.covers o (img.width * img.depth * img.itemSize)) :
    w * d * i ≤ (GPUImage.mkShaped h w d i (AllocOracle.ok p init)).pitch ∧
    pitchCoversRow (GPUImage.mkShaped h w d i (AllocOracle.ok p init)) ∧
    pitchCoversRow GPUImage.mkDefault ∧
    pitchCoversRow (GPUImage.mkShaped h w d i AllocOracle.fail) ∧
    pitchCoversRow ((g.upload img o).1) := by
  have hpre : pitchCoversRow (g.adoptIfUnallocated img o) := by
    unfold GPUImage.adoptIfUnallocated
    by_cases hn : g.ptr_dev.isNone = true
    · simp only [hn, if_true]
      cases o with
      | fail =>
          intro hsome
          simp [GPUImage.allocate] at hsome
      | ok p2 init2 =>
          intro _
          simpa [GPUImage.allocate] using ho p2 init2 rfl
    · simp only [hn, if_false]
      exact hg
  refine ⟨hp, fun _ => hp, ?_, ?_, ?_⟩
  · intro hsome
    simp [GPUImage.mkDefault] at hsome
  · intro hsome
    simp [GPUImage.mkShaped, GPUImage.allocate] at hsome
  · rcases upload_result_cases g img o with hcase | ⟨hsome2, m2, hcase⟩
    · rw [hcase]
      exact hpre
    · rw [hcase]
      intro _
      exact hpre hsome2

/-- Witness for C6: a 2×3 single-byte buffer with platform pitch 4, and an
upload of a 1×1 image into the default-constructed buffer with platform
pitch 1. -/
theorem pitch_ge_row_size_witness :
    3 * 1 * 1 ≤ (GPUImage.mkShaped 2 3 1 1 (AllocOracle.ok 4 (DeviceMem.mk fun _ => 0))).pitch ∧
    pitchCoversRow (GPUImage.mkShaped 2 3 1 1 (AllocOracle.ok 4 (DeviceMem.mk fun _ => 0))) ∧
    pitchCoversRow GPUImage.mkDefault ∧
    pitchCoversRow (GPUImage.mkShaped 2 3 1 1 AllocOracle.fail) ∧
    pitchCoversRow ((GPUImage.mkDefault.upload
      { height := 1, width := 1, depth := 1, pitch := 1, itemSize := 1, data := fun _ => 0 }
      (AllocOracle.ok 1 (DeviceMem.mk fun _ => 0))).1) :=
  pitch_ge_row_size 2 3 1 1 4 (DeviceMem.mk fun _ => 0) GPUImage.mkDefault
    { height := 1, width := 1, depth := 1, pitch := 1, itemSize := 1, data := fun _ => 0 }
    (AllocOracle.ok 1 (DeviceMem.mk fun _ => 0))
    (by decide)
    (by intro hsome; simp [GPUImage.mkDefault] at hsome)
    (by rintro p2 init2 hpi; cases hpi; decide)

/-- C7 counterexample: constructing a buffer of shape 2×3×1 (itemSize 4)
when the platform allocation fails leaves the shape fields positive while
the device pointer is null.  The constructor stores the shape before
calling `allocate`, and a failing `cudaMallocPitch` does not roll the
fields back, so the buffer is neither all-zero-unallocated nor
all-positive-allocated: the claimed discipline is violated. -/
theorem shape_discipline_counterexample :
    ¬ wellFormedShape (GPUImage.mkShaped 2 3 1 4 AllocOracle.fail) := by
  unfold wellFormedShape GPUImage.mkShaped GPUImage.allocate
  decide

/-- C7 amended: the shape discipline (fields all zero with no allocation,
or all positive with an allocation) holds after default construction,
after shaped construction with positive dimensions whose allocation
succeeds, and is preserved by upload of a positively-shaped host image
whose allocation succeeds; a failed allocation leaves the buffer
unallocated (null device pointer) but retains the requested shape fields,
so after an allocation failure a partial state — positive shape fields
with no allocation — is observable. -/
theorem shape_discipline_amended (h w d i p : Nat) (init : DeviceMem)
    (g : GPUImage) (img : image_t) (p2 : Nat) (init2 : DeviceMem)
    (hh : 0 < h) (hw : 0 < w) (hd : 0 < d) (hi : 0 < i)
    (himg : 0 < img.height ∧ 0 < img.width ∧ 0 < img.depth ∧ 0 < img.itemSize)
    (hg : wellFormedShape g) :
    wellFormedShape GPUImage.mkDefault ∧
    wellFormedShape (GPUImage.mkShaped h w d i (AllocOracle.ok p init)) ∧
    ((GPUImage.mkShaped h w d i AllocOracle.fail).ptr_dev = none ∧
      (GPUImage.mkShaped h w d i AllocOracle.fail).height = h ∧
      (GPUImage.mkShaped h w d i AllocOracle.fail).width = w ∧
      (GPUImage.mkShaped h w d i AllocOracle.fail).depth = d ∧
      (GPUImage.mkShaped h w d i AllocOracle.fail).itemSize = i) ∧
    wellFormedShape ((g.upload img (AllocOracle.ok p2 init2)).1) := by
  obtain ⟨hih, hiw, hid, hii⟩ := himg
  have hpre : wellFormedShape (g.adoptIfUnallocated img (AllocOracle.ok p2 init2)) := by
    unfold GPUImage.adoptIfUnallocated
    rcases hg with ⟨e1, e2, e3, e4, e5⟩ | ⟨q1, q2, q3, q4, q5⟩
    · rw [if_pos e5]
      refine Or.inr ⟨hih, hiw, hid, hii, ?_⟩
      simp [GPUImage.allocate]
    · have e5 : g.ptr_dev.isNone = false := by
        cases hptr : g.ptr_dev <;> simp_all
      simp only [e5, Bool.false_eq_true, if_false]
      exact Or.inr ⟨q1, q2, q3, q4, q5⟩
  refine ⟨Or.inl ⟨rfl, rfl, rfl, rfl, rfl⟩, ?_, ⟨rfl, rfl, rfl, rfl, rfl⟩, ?_⟩
  · refine Or.inr ⟨hh, hw, hd, hi, ?_⟩
    simp [GPUImage.mkShaped, GPUImage.allocate]
  · rcases upload_result_cases g img (AllocOracle.ok p2 init2) with hcase | ⟨hsome2, m2, hcase⟩
    · rw [hcase]
      exact hpre
    · rw [hcase]
      rcases hpre with ⟨z1, z2, z3, z4, z5⟩ | ⟨q1, q2, q3, q4, q5⟩
      · exfalso
        cases hptr : (g.adoptIfUnallocated img (AllocOracle.ok p2 init2)).ptr_dev <;> simp_all
      · exact Or.inr ⟨q1, q2, q3, q4, rfl⟩

/-- Witness for C7's amended theorem: 1×1×1 buffers and images with every
allocation succeeding at pitch 1. -/
theorem shape_discipline_amended_witness :
    wellFormedShape GPUImage.mkDefault ∧
    wellFormedShape (GPUImage.mkShaped 1 1 1 1 (AllocOracle.ok 1 (DeviceMem.mk fun _ => 0))) ∧
    ((GPUImage.mkShaped 1 1 1 1 AllocOracle.fail).ptr_dev = none ∧
      (GPUImage.mkShaped 1 1 1 1 AllocOracle.fail).height = 1 ∧
      (GPUImage.mkShaped 1 1 1 1 AllocOracle.fail).width = 1 ∧
      (GPUImage.mkShaped 1 1 1 1 AllocOracle.fail).depth = 1 ∧
      (GPUImage.mkShaped 1 1 1 1 AllocOracle.fail).itemSize = 1) ∧
    wellFormedShape ((GPUImage.mkDefault.upload
      { height := 1, width := 1, depth := 1, pitch := 1, itemSize := 1, data := fun _ => 0 }
      (AllocOracle.ok 1 (DeviceMem.mk fun _ => 0))).1) :=
  shape_discipline_amended 1 1 1 1 1 (DeviceMem.mk fun _ => 0) GPUImage.mkDefault
    { height := 1, width := 1, depth := 1, pitch := 1, itemSize := 1, data := fun _ => 0 }
    1 (DeviceMem.mk fun _ => 0)
    (by decide) (by decide) (by decide) (by decide)
    ⟨by decide, by decide, by decide, by decide⟩
    (Or.inl ⟨rfl, rfl, rfl, rfl, rfl⟩)

/-- C8: shared ownership of a device allocation.  For an allocation with
two owners (`GPUImage` A and its copy B, or a `GPUTexture` holding A's
image — copies share the same handle, so the same underlying allocation),
destroying A decrements the count and leaves B's allocation live with
pointer and contents unchanged and no release performed; destroying the
last owner releases the allocation exactly once, through the platform's
`cudaFree` (modelled by the `cudaFreeCalls` counter), never through
generic `free` (`freeCalls` stays 0); and taking a further copy merely
increments the count, leaving contents and liveness untouched. -/
theorem shared_ownership_release_once (s : DevHeap) (hnd : Nat)
    (hrc : s.refcount hnd = 2) (hlive : s.live hnd = true)
    (hcf : s.cudaFreeCalls hnd = 0) (hgf : s.freeCalls hnd = 0) :
    ((s.sharedPtrDrop hnd).refcount hnd = 1 ∧
      (s.sharedPtrDrop hnd).live hnd = true ∧
      (s.sharedPtrDrop hnd).mem hnd = s.mem hnd ∧
      (s.sharedPtrDrop hnd).cudaFreeCalls hnd = 0 ∧
      (s.sharedPtrDrop hnd).freeCalls hnd = 0) ∧
    (((s.sharedPtrDrop hnd).sharedPtrDrop hnd).live hnd = false ∧
      ((s.sharedPtrDrop hnd).sharedPtrDrop hnd).cudaFreeCalls hnd = 1 ∧
      ((s.sharedPtrDrop hnd).sharedPtrDrop hnd).freeCalls hnd = 0) ∧
    ((s.sharedPtrCopy hnd).refcount hnd = 3 ∧
      (s.sharedPtrCopy hnd).mem hnd = s.mem hnd ∧
      (s.sharedPtrCopy hnd).live hnd = s.live hnd) := by
  refine ⟨⟨?_, ?_, ?_, ?_, ?_⟩, ⟨?_, ?_, ?_⟩, ⟨?_, ?_, ?_⟩⟩ <;>
    simp [DevHeap.sharedPtrDrop, DevHeap.sharedPtrCopy, hrc, hlive, hcf, hgf]

/-- Witness for C8: a heap whose every handle has two owners, live memory
holding byte 7, and no releases performed yet. -/
theorem shared_ownership_release_once_witness :
    ((DevHeap.sharedPtrDrop { refcount := fun _ => 2, live := fun _ => true, mem := fun _ => DeviceMem.mk fun _ => 7, cudaFreeCalls := fun _ => 0, freeCalls := fun _ => 0 } 0).refcount 0 = 1 ∧
      (DevHeap.sharedPtrDrop { refcount := fun _ => 2, live := fun _ => true, mem := fun _ => DeviceMem.mk fun _ => 7, cudaFreeCalls := fun _ => 0, freeCalls := fun _ => 0 } 0).live 0 = true ∧
      (DevHeap.sharedPtrDrop { refcount := fun _ => 2, live := fun _ => true, mem := fun _ => DeviceMem.mk fun _ => 7, cudaFreeCalls := fun _ => 0, freeCalls := fun _ => 0 } 0).mem 0 = ({ refcount := fun _ => 2, live := fun _ => true, mem := fun _ => DeviceMem.mk fun _ => 7, cudaFreeCalls := fun _ => 0, freeCalls := fun _ => 0 } : DevHeap).mem 0 ∧
      (DevHeap.sharedPtrDrop { refcount := fun _ => 2, live := fun _ => true, mem := fun _ => DeviceMem.mk fun _ => 7, cudaFreeCalls := fun _ => 0, freeCalls := fun _ => 0 } 0).cudaFreeCalls 0 = 0 ∧
      (DevHeap.sharedPtrDrop { refcount := fun _ => 2, live := fun _ => true, mem := fun _ => DeviceMem.mk fun _ => 7, cudaFreeCalls := fun _ => 0, freeCalls := fun _ => 0 } 0).freeCalls 0 = 0) ∧
    (((DevHeap.sharedPtrDrop { refcount := fun _ => 2, live := fun _ => true, mem := fun _ => DeviceMem.mk fun _ => 7, cudaFreeCalls := fun _ => 0, freeCalls := fun _ => 0 } 0).sharedPtrDrop 0).live 0 = false ∧
      ((DevHeap.sharedPtrDrop { refcount := fun _ => 2, live := fun _ => true, mem := fun _ => DeviceMem.mk fun _ => 7, cudaFreeCalls := fun _ => 0, freeCalls := fun _ => 0 } 0).sharedPtrDrop 0).cudaFreeCalls 0 = 1 ∧
      ((DevHeap.sharedPtrDrop { refcount := fun _ => 2, live := fun _ => true, mem := fun _ => DeviceMem.mk fun _ => 7, cudaFreeCalls := fun _ => 0, freeCalls := fun _ => 0 } 0).sharedPtrDrop 0).freeCalls 0 = 0) ∧
    ((DevHeap.sharedPtrCopy { refcount := fun _ => 2, live := fun _ => true, mem := fun _ => DeviceMem.mk fun _ => 7, cudaFreeCalls := fun _ => 0, freeCalls := fun _ => 0 } 0).refcount 0 = 3 ∧
      (DevHeap.sharedPtrCopy { refcount := fun _ => 2, live := fun _ => true, mem := fun _ => DeviceMem.mk fun _ => 7, cudaFreeCalls := fun _ => 0, freeCalls := fun _ => 0 } 0).mem 0 = ({ refcount := fun _ => 2, live := fun _ => true, mem := fun _ => DeviceMem.mk fun _ => 7, cudaFreeCalls := fun _ => 0, freeCalls := fun _ => 0 } : DevHeap).mem 0 ∧
      (DevHeap.sharedPtrCopy { refcount := fun _ => 2, live := fun _ => true, mem := fun _ => DeviceMem.mk fun _ => 7, cudaFreeCalls := fun _ => 0, freeCalls := fun _ => 0 } 0).live 0 = ({ refcount := fun _ => 2, live := fun _ => true, mem := fun _ => DeviceMem.mk fun _ => 7, cudaFreeCalls := fun _ => 0, freeCalls := fun _ => 0 } : DevHeap).live 0) :=
  shared_ownership_release_once
    { refcount := fun _ => 2, live := fun _ => true, mem := fun _ => DeviceMem.mk fun _ => 7,
      cudaFreeCalls := fun _ => 0, freeCalls := fun _ => 0 }
    0 rfl rfl rfl rfl

end gpu

end flowfilter
